import Mathlib

/-!
Shallow embedding of the authentication/session core of the
budget-tracker frontend: the `AuthProvider` state and its three
operations (`checkAuth` bootstrap, `login`, `logout`) from
`src/context/AuthContext.tsx`, the shared HTTP client's response
interceptor from `src/api/axios.ts`, and the `PrivateRoute` guard from
`src/routes/PrivateRoute.tsx`.

Modelling conventions:
- `localStorage` is the two-key `Cache` (keys `token` and `user`, both
  holding strings; `none` = key absent).
- React `useState` cells become the fields of `SessionState`; a state
  setter becomes a functional record update, committed by the time the
  operation's returned state is observed.
- `JSON.parse` is an explicit parameter `parse : String -> Option User`
  (`none` models a thrown `SyntaxError`); `JSON.stringify` on a `User`
  is the concrete `serializeUser`.
- JavaScript truthiness of a `string | null` value (`null` and `""` are
  falsy) is `truthy : Option String -> Bool`.
- An HTTP rejection is `HttpFailure`: `status = none` models a request
  with no response (network error), `respError` models the optional
  chain `error.response?.data?.error` (the `ApiError.error` field).
- `window.location` is `Nav`; assigning `window.location.href`
  increments `navCount` so that forced navigations are observable.
-/

namespace BudgetTracker

/-- The `User` interface from `src/types/index.ts`. -/
structure User where
  id : Nat
  username : String
  email : String
  first_name : String
  last_name : String
deriving Repr, DecidableEq

/-- The persisted session cache: browser `localStorage` restricted to the
two keys the session core uses (`token`, `user`). `none` means the key
is absent. -/
structure Cache where
  token : Option String
  user : Option String
deriving Repr, DecidableEq

/-- The `AuthProvider` React state: the `user`, `token` and `loading`
`useState` cells of `src/context/AuthContext.tsx`. -/
structure SessionState where
  user : Option User
  token : Option String
  loading : Bool
deriving Repr, DecidableEq

/-- JavaScript truthiness of a `string | null` value: `null` and the
empty string are falsy. -/
def truthy : Option String → Bool
  | none => false
  | some s => s != ""

/-- Line 183 of `AuthContext.tsx`: `const isAuthenticated = !!token && !!user;`
(`user` is an object-or-null, so `!!user` is presence). -/
def isAuthenticated (s : SessionState) : Bool :=
  truthy s.token && s.user.isSome

/-- The initial `AuthProvider` state: `useState<User | null>(null)`,
`useState<string | null>(null)`, `useState<boolean>(true)`. -/
def initialSession : SessionState :=
  { user := none, token := none, loading := true }

/-- `JSON.stringify` applied to a `User` record, field order as declared. -/
def serializeUser (u : User) : String :=
  "\x7b\"id\":" ++ toString u.id ++
    ",\"username\":\"" ++ u.username ++
    "\",\"email\":\"" ++ u.email ++
    "\",\"first_name\":\"" ++ u.first_name ++
    "\",\"last_name\":\"" ++ u.last_name ++ "\"\x7d"

/-- `checkAuth` from `AuthContext.tsx` lines 77-98. Reads both keys; if
both are truthy it first calls `setToken(storedToken)` and then parses
the stored user, so a parse failure (the `catch` branch) removes both
cache keys but leaves the already-set token in place; the `finally`
branch always clears `loading`. Returns the cache and session state as
they stand when the call finishes. -/
def checkAuth (parse : String → Option User) (c : Cache) (s : SessionState) :
    Cache × SessionState :=
  match c.token, c.user with
  | some t, some u =>
    if t != "" && u != "" then
      match parse u with
      | some pu =>
        (c, { s with token := some t, user := some pu, loading := false })
      | none =>
        ({ token := none, user := none },
         { s with token := some t, loading := false })
    else
      (c, { s with loading := false })
  | _, _ => (c, { s with loading := false })

/-- An HTTP rejection as the axios error object exposes it: `status` is
`error.response.status` when a response arrived (`none` for a network
error with no response), `respError` is `error.response?.data?.error`. -/
structure HttpFailure where
  status : Option Nat
  respError : Option String
deriving Repr, DecidableEq

/-- The browser location, with a navigation counter so that each
assignment to `window.location.href` is observable. -/
structure Nav where
  path : String
  navCount : Nat
deriving Repr, DecidableEq

/-- Assignment to `window.location.href`. -/
def setLocationHref (p : String) (n : Nav) : Nav :=
  { path := p, navCount := n.navCount + 1 }

/-- The error branch of the response interceptor in `src/api/axios.ts`
lines 92-106: on a 401 response it removes both localStorage keys and
navigates to `/login` unless already there; every other failure only
logs. The rejection is then re-raised to the caller unchanged. -/
def interceptOnError (e : HttpFailure) (c : Cache) (n : Nav) : Cache × Nav :=
  match e.status with
  | some st =>
    if st = 401 then
      ({ token := none, user := none },
       if n.path != "/login" then setLocationHref "/login" n else n)
    else
      (c, n)
  | none => (c, n)

/-- The `LoginResult` interface: `{success: boolean, error?: string}`. -/
structure LoginResult where
  success : Bool
  error : Option String
deriving Repr, DecidableEq

/-- The generic fallback message of `login`'s catch branch. -/
def fallbackLoginError : String := "Login failed. Please try again."

/-- `axiosError.response?.data?.error || 'Login failed. Please try again.'`:
the payload message when present and truthy, the fallback otherwise. -/
def extractLoginError (e : HttpFailure) : String :=
  match e.respError with
  | some m => if m != "" then m else fallbackLoginError
  | none => fallbackLoginError

/-- Outcome of the CredentialService `POST /api/auth/login/` call, after
the transport: either the `LoginResponse` payload `{token, user}` or a
rejection. -/
inductive ApiResult where
  | ok (token : String) (user : User)
  | err (e : HttpFailure)
deriving Repr, DecidableEq

/-- `login` from `AuthContext.tsx` lines 108-155, composed with the
response interceptor the shared axios instance runs on every rejection
before it reaches `login`'s catch. On success: writes token and
serialized user to the cache, updates both state cells, resolves
`{success: true}`. On failure: the interceptor's 401 side effects
happen first, then the catch leaves session state alone and resolves
`{success: false, error: ...}`. Total, so no failure escapes. -/
def login (r : ApiResult) (c : Cache) (n : Nav) (s : SessionState) :
    Cache × Nav × SessionState × LoginResult :=
  match r with
  | .ok t u =>
    ({ token := some t, user := some (serializeUser u) }, n,
     { s with token := some t, user := some u },
     { success := true, error := none })
  | .err e =>
    let cn := interceptOnError e c n
    (cn.1, cn.2, s, { success := false, error := some (extractLoginError e) })

/-- Outcome of the CredentialService `POST /api/auth/logout/` call. -/
inductive RevokeOutcome where
  | ok
  | err (e : HttpFailure)
deriving Repr, DecidableEq

/-- `logout` from `AuthContext.tsx` lines 163-175: the revoke call's
rejection (if any) first passes through the response interceptor and is
then swallowed by the catch; the `finally` branch unconditionally
clears both state cells and removes both cache keys. Total, so no
failure escapes to the caller. -/
def logout (r : RevokeOutcome) (c : Cache) (n : Nav) (s : SessionState) :
    Cache × Nav × SessionState :=
  let cn :=
    match r with
    | .ok => (c, n)
    | .err e => interceptOnError e c n
  ({ cn.1 with token := none, user := none }, cn.2,
   { s with token := none, user := none })

/-- What `PrivateRoute` renders. `redirect` carries the target path and
the `replace` flag of the `<Navigate>` element (`true` = replace the
current history entry, push nothing). -/
inductive RouteDecision where
  | showPlaceholder
  | redirect (path : String) (replace : Bool)
  | renderProtected
deriving Repr, DecidableEq

/-- `PrivateRoute` from `src/routes/PrivateRoute.tsx`: placeholder while
`loading`, then `<Navigate to="/login" replace />` when unauthenticated,
else the protected children. -/
def privateRoute (loading isAuth : Bool) : RouteDecision :=
  if loading then .showPlaceholder
  else if !isAuth then .redirect "/login" true
  else .renderProtected

/-- A user-driven operation after bootstrap: a `login` call with its
transport outcome, or a `logout` call with its revoke outcome. -/
inductive Op where
  | doLogin (r : ApiResult)
  | doLogout (r : RevokeOutcome)

/-- The full observable world: the persisted cache, the browser
location, and the in-memory session state. -/
structure World where
  cache : Cache
  nav : Nav
  session : SessionState

/-- Run one post-bootstrap operation on the world (`LoginResult` values
are returned to the in-page caller and do not alter the world). -/
def runOp (op : Op) (w : World) : World :=
  match op with
  | .doLogin r =>
    let res := login r w.cache w.nav w.session
    { cache := res.1, nav := res.2.1, session := res.2.2.1 }
  | .doLogout r =>
    let res := logout r w.cache w.nav w.session
    { cache := res.1, nav := res.2.1, session := res.2.2 }

/-- The successive worlds produced by a list of operations. -/
def runOps : List Op → World → List World
  | [], _ => []
  | op :: ops, w =>
    let w2 := runOp op w
    w2 :: runOps ops w2

/-- The session snapshots a process exhibits: the initial state, the
state right after the one-time `checkAuth` bootstrap (the `useEffect`
with an empty dependency list runs it exactly once), then the state
after each subsequent login/logout operation. -/
def processStates (parse : String → Option User) (c0 : Cache) (n0 : Nav)
    (ops : List Op) : List SessionState :=
  let b := checkAuth parse c0 initialSession
  let w1 : World := { cache := b.1, nav := n0, session := b.2 }
  initialSession :: b.2 :: (runOps ops w1).map World.session

/-- Every branch of `checkAuth` ends in the `finally` that clears
`loading`. -/
theorem checkAuth_loading (parse : String → Option User) (c : Cache)
    (s : SessionState) : (checkAuth parse c s).2.loading = false := by
  unfold checkAuth
  rcases c.token with _ | t <;> rcases c.user with _ | u <;> simp
  split
  · rcases parse u with _ | pu <;> simp
  · simp

/-- Neither `login` nor `logout` touches the `loading` cell. -/
theorem runOp_loading (op : Op) (w : World) :
    (runOp op w).session.loading = w.session.loading := by
  rcases op with r | r
  · rcases r with ⟨t, u⟩ | e <;> simp [runOp, login]
  · rcases r with _ | e <;> simp [runOp, logout]

/-- Once `loading` is cleared, no sequence of operations sets it again. -/
theorem runOps_loading (ops : List Op) (w : World)
    (h : w.session.loading = false) :
    ∀ w2 ∈ runOps ops w, w2.session.loading = false := by
  induction ops generalizing w with
  | nil => intro w2 hw2; simp [runOps] at hw2
  | cons op ops ih =>
    intro w2 hw2
    simp only [runOps, List.mem_cons] at hw2
    have hstep : (runOp op w).session.loading = false :=
      (runOp_loading op w).trans h
    rcases hw2 with rfl | hw2
    · exact hstep
    · exact ih (runOp op w) hstep w2 hw2

/-- Claim C8: with `loading = true` the route guard returns the
placeholder only, for either value of `isAuthenticated` — it neither
renders protected content nor redirects while the bootstrap outcome is
unknown. -/
theorem privateRoute_loading_placeholder (auth : Bool) :
    privateRoute true auth = RouteDecision.showPlaceholder := rfl

/-- Claim C9: with `loading = false` and `isAuthenticated = false` the
route guard returns a redirect to `/login` with the `replace` flag set,
so the current history entry is replaced and no new entry is pushed. -/
theorem privateRoute_unauthenticated_redirect :
    privateRoute false false = RouteDecision.redirect "/login" true := rfl

/-- Claim C6: `logout` always ends with both session cells cleared and
both cache keys removed (`isAuthenticated = false`, empty cache), for
every revoke outcome — success, rejection, or a 401 that additionally
triggers the interceptor — and, being total, never propagates a revoke
failure; `loading` is untouched. -/
theorem logout_always_clears (r : RevokeOutcome) (c : Cache) (n : Nav)
    (s : SessionState) :
    (logout r c n s).1 = { token := none, user := none } ∧
    (logout r c n s).2.2.token = none ∧
    (logout r c n s).2.2.user = none ∧
    isAuthenticated (logout r c n s).2.2 = false ∧
    (logout r c n s).2.2.loading = s.loading := by
  rcases r with _ | e <;>
    simp [logout, isAuthenticated, truthy]

/-- Claim C5: a successful `login` writes the token and the serialized
user to the cache, sets both session cells to the returned values (so
`isAuthenticated` becomes true for a nonempty bearer token), and
resolves `{success := true}`. -/
theorem login_success_updates_cache_and_session (t : String) (u : User)
    (c : Cache) (n : Nav) (s : SessionState) (h : t ≠ "") :
    login (.ok t u) c n s =
      ({ token := some t, user := some (serializeUser u) }, n,
       { s with token := some t, user := some u },
       { success := true, error := none }) ∧
    isAuthenticated (login (.ok t u) c n s).2.2.1 = true := by
  refine ⟨rfl, ?_⟩
  simp [login, isAuthenticated, truthy, h]

/-- Claim C5 witness: the spec's concrete scenario,
`login("testuser","testpass123")` answered with token `"abc"` and the
user record `{id := 1, username := "testuser", ...}`. -/
theorem login_success_witness :
    ("abc" : String) ≠ "" ∧
    login (.ok "abc" ⟨1, "testuser", "test@example.com", "Test", "User"⟩)
        { token := none, user := none } { path := "/login", navCount := 0 }
        initialSession =
      ({ token := some "abc",
         user := some (serializeUser ⟨1, "testuser", "test@example.com", "Test", "User"⟩) },
       { path := "/login", navCount := 0 },
       { user := some ⟨1, "testuser", "test@example.com", "Test", "User"⟩,
         token := some "abc", loading := true },
       { success := true, error := none }) ∧
    isAuthenticated (login (.ok "abc" ⟨1, "testuser", "test@example.com", "Test", "User"⟩)
        { token := none, user := none } { path := "/login", navCount := 0 }
        initialSession).2.2.1 = true := by
  have h := login_success_updates_cache_and_session "abc"
    ⟨1, "testuser", "test@example.com", "Test", "User"⟩
    { token := none, user := none } { path := "/login", navCount := 0 }
    initialSession (by decide)
  exact ⟨by decide, h.1, h.2⟩

/-- Claim C4: a failing `login` resolves `{success := false}` with the
error message taken from the failure payload's message field when one
is available (a truthy `response.data.error`), and with the generic
fallback message when no message is available. -/
theorem login_error_message_extraction (e : HttpFailure) (c : Cache)
    (n : Nav) (s : SessionState) :
    (login (.err e) c n s).2.2.2.success = false ∧
    (∀ m, e.respError = some m → m ≠ "" →
      (login (.err e) c n s).2.2.2.error = some m) ∧
    (e.respError = none →
      (login (.err e) c n s).2.2.2.error = some fallbackLoginError) := by
  refine ⟨by simp [login], ?_, ?_⟩
  · intro m hm hne
    simp [login, extractLoginError, hm, hne]
  · intro hm
    simp [login, extractLoginError, hm]

/-- Claim C4 witness: the spec's scenario — the CredentialService
rejects with a payload carrying `"Invalid credentials"`, and the call
resolves `{success := false, error := "Invalid credentials"}`. -/
theorem login_error_message_extraction_witness :
    (login (.err { status := some 400, respError := some "Invalid credentials" })
        { token := none, user := none } { path := "/login", navCount := 0 }
        { user := none, token := none, loading := false }).2.2.2.success = false ∧
    (login (.err { status := some 400, respError := some "Invalid credentials" })
        { token := none, user := none } { path := "/login", navCount := 0 }
        { user := none, token := none, loading := false }).2.2.2.error =
      some "Invalid credentials" := by
  have h := login_error_message_extraction
    { status := some 400, respError := some "Invalid credentials" }
    { token := none, user := none } { path := "/login", navCount := 0 }
    { user := none, token := none, loading := false }
  exact ⟨h.1, h.2.1 "Invalid credentials" rfl (by decide)⟩

/-- Claim C1: the claimed invariant "`user` present iff `token` present
at every snapshot" is violated by the code. On a bootstrap whose cache
holds a truthy token together with a truthy but unparsable user value,
`checkAuth` has already run `setToken(storedToken)` when `JSON.parse`
throws; the catch removes both cache keys but never resets the token
cell, so the resulting snapshot has `token` set with `user` absent
(while still reporting `isAuthenticated = false`). -/
theorem checkAuth_unparsable_user_token_without_user :
    checkAuth (fun _ => none) { token := some "t0ken", user := some "notjson" }
        initialSession =
      ({ token := none, user := none },
       { user := none, token := some "t0ken", loading := false }) ∧
    isAuthenticated
      (checkAuth (fun _ => none) { token := some "t0ken", user := some "notjson" }
        initialSession).2 = false := by
  exact ⟨rfl, rfl⟩

/-- Claim C2 counterexample: a bootstrap with the `token` key missing
but a `user` entry present does not remove the partially-present entry
— the cache clearing only sits in the catch branch, and a missing key
throws nothing. The claim's "removes both cache entries, including any
partially-present one" is false at this input. -/
theorem checkAuth_missing_key_cache_not_cleared :
    (checkAuth (fun _ => none) { token := none, user := some "stale" }
        initialSession).1 = { token := none, user := some "stale" } ∧
    ¬ ((checkAuth (fun _ => none) { token := none, user := some "stale" }
        initialSession).1.user = none) := by
  exact ⟨rfl, by decide⟩

/-- Claim C2 as amended: every bootstrap with a missing `token` key, a
missing `user` key, or an unparsable stored user ends unauthenticated
with `loading = false`; the cache entries are removed only in the
unparsable case (where `JSON.parse` throws into the catch), while
missing-key bootstraps leave the cache exactly as it was, stale partial
entry included. -/
theorem checkAuth_failure_unauthenticated (parse : String → Option User)
    (c : Cache)
    (h : c.token = none ∨ c.user = none ∨
      (∃ u, c.user = some u ∧ parse u = none)) :
    isAuthenticated (checkAuth parse c initialSession).2 = false ∧
    (checkAuth parse c initialSession).2.loading = false ∧
    (c.token = none ∨ c.user = none →
      (checkAuth parse c initialSession).1 = c) ∧
    (∀ t u, c.token = some t → c.user = some u → t ≠ "" → u ≠ "" →
      parse u = none →
      (checkAuth parse c initialSession).1 = { token := none, user := none }) := by
  obtain ⟨ct, cu⟩ := c
  rcases ct with _ | t <;> rcases cu with _ | u
  · simp [checkAuth, isAuthenticated, initialSession, truthy]
  · simp [checkAuth, isAuthenticated, initialSession, truthy]
  · simp [checkAuth, isAuthenticated, initialSession, truthy]
  · rcases h with h | h | ⟨u2, hu2, hp⟩
    · exact absurd h (by simp)
    · exact absurd h (by simp)
    · have hu : u2 = u := Option.some.inj hu2.symm
      subst hu
      by_cases ht : t = ""
      · subst ht
        simp [checkAuth, isAuthenticated, initialSession, truthy]
      · by_cases hue : u2 = ""
        · subst hue
          simp [checkAuth, isAuthenticated, initialSession, truthy, ht]
        · simp [checkAuth, isAuthenticated, initialSession, truthy, ht, hue, hp]

/-- Claim C2 witness: the amended theorem applied to a bootstrap with a
present but unparsable user and a present token — unauthenticated, done
loading, and the cache fully cleared. -/
theorem checkAuth_failure_unauthenticated_witness :
    isAuthenticated (checkAuth (fun _ => none)
        { token := some "t0ken", user := some "notjson" } initialSession).2 = false ∧
    (checkAuth (fun _ => none)
        { token := some "t0ken", user := some "notjson" } initialSession).1 =
      { token := none, user := none } := by
  have h := checkAuth_failure_unauthenticated (fun _ => none)
    { token := some "t0ken", user := some "notjson" }
    (Or.inr (Or.inr ⟨"notjson", rfl, rfl⟩))
  exact ⟨h.1, h.2.2.2 "t0ken" "notjson" rfl rfl (by decide) (by decide) rfl⟩

/-- Claim C3 counterexample: a failing `login` whose rejection carries
HTTP status 401 does mutate the Persisted Session Cache — the shared
response interceptor removes both keys before the error reaches
`login`'s catch — refuting "does not mutate ... the Persisted Session
Cache" for every failing call. -/
theorem login_failure_cache_mutated_on_401 :
    (login (.err { status := some 401, respError := some "Invalid credentials" })
        { token := some "old", user := some "stale" }
        { path := "/dashboard", navCount := 0 }
        { user := none, token := none, loading := false }).1 ≠
      { token := some "old", user := some "stale" } := by
  decide

/-- Claim C3 as amended: every failing `login` leaves the session state
unchanged, never throws past its boundary (the operation is total), and
resolves `{success := false, error := ...}`; the cache and the browser
location are also unchanged unless the failure carries HTTP status 401,
in which case the shared response interceptor removes both cache
entries before the rejection reaches `login`'s catch. -/
theorem login_failure_no_session_mutation (e : HttpFailure) (c : Cache)
    (n : Nav) (s : SessionState) :
    (login (.err e) c n s).2.2.1 = s ∧
    (login (.err e) c n s).2.2.2 =
      { success := false, error := some (extractLoginError e) } ∧
    (e.status ≠ some 401 →
      (login (.err e) c n s).1 = c ∧ (login (.err e) c n s).2.1 = n) ∧
    (e.status = some 401 →
      (login (.err e) c n s).1 = { token := none, user := none }) := by
  refine ⟨rfl, rfl, ?_, ?_⟩
  · intro h401
    rcases he : e.status with _ | st
    · simp [login, interceptOnError, he]
    · have hne : st ≠ 401 := by
        intro hst
        exact h401 (by rw [he, hst])
      simp [login, interceptOnError, he, hne]
  · intro h401
    simp [login, interceptOnError, h401]

/-- Claim C3 witness: a non-401 rejection (HTTP 500) leaves cache,
location and session untouched and resolves a failure result. -/
theorem login_failure_no_session_mutation_witness :
    (login (.err { status := some 500, respError := none })
        { token := some "old", user := some "stale" }
        { path := "/dashboard", navCount := 0 }
        { user := none, token := none, loading := false }).2.2.1 =
      { user := none, token := none, loading := false } ∧
    (login (.err { status := some 500, respError := none })
        { token := some "old", user := some "stale" }
        { path := "/dashboard", navCount := 0 }
        { user := none, token := none, loading := false }).1 =
      { token := some "old", user := some "stale" } := by
  have h := login_failure_no_session_mutation
    { status := some 500, respError := none }
    { token := some "old", user := some "stale" }
    { path := "/dashboard", navCount := 0 }
    { user := none, token := none, loading := false }
  exact ⟨h.1, (h.2.2.1 (by decide)).1⟩

/-- Claim C7: in every process the first observable session snapshot has
`loading = true`, and every later snapshot — the one produced by the
one-time bootstrap, whatever its outcome, and every snapshot after any
sequence of login/logout operations — has `loading = false`; so
`loading` transitions from true to false exactly once, at bootstrap
completion, and is never true again. -/
theorem loading_transitions_once (parse : String → Option User) (c0 : Cache)
    (n0 : Nav) (ops : List Op) :
    (processStates parse c0 n0 ops).head? = some initialSession ∧
    initialSession.loading = true ∧
    ∀ s2 ∈ (processStates parse c0 n0 ops).tail, s2.loading = false := by
  refine ⟨rfl, rfl, ?_⟩
  intro s2 hs2
  simp only [processStates, List.tail_cons, List.mem_cons, List.mem_map] at hs2
  rcases hs2 with rfl | ⟨w2, hw2, rfl⟩
  · exact checkAuth_loading parse c0 initialSession
  · exact runOps_loading ops _ (checkAuth_loading parse c0 initialSession) w2 hw2

/-- Claim C7 witness: a concrete process (empty cache, one logout after
bootstrap) whose post-bootstrap snapshot has `loading = false`. -/
theorem loading_transitions_once_witness :
    (checkAuth (fun _ => none) { token := none, user := none }
        initialSession).2.loading = false := by
  have h := loading_transitions_once (fun _ => none)
    { token := none, user := none } { path := "/", navCount := 0 } []
  exact h.2.2 _ (by simp [processStates, runOps])

/-- Claim C10: every rejection carrying HTTP status 401 makes the shared
response interceptor remove both Persisted Session Cache entries and
assign `window.location.href = "/login"` unless the current path is
already `/login`; this happens before the rejection reaches the caller,
so a failing `login` observing a 401 already sees the cleared cache. -/
theorem interceptor_401_clears_and_redirects (e : HttpFailure) (c : Cache)
    (n : Nav) (h : e.status = some 401) :
    (interceptOnError e c n).1 = { token := none, user := none } ∧
    (n.path ≠ "/login" →
      (interceptOnError e c n).2 = { path := "/login", navCount := n.navCount + 1 }) ∧
    (n.path = "/login" → (interceptOnError e c n).2 = n) ∧
    ∀ s : SessionState,
      (login (.err e) c n s).1 = { token := none, user := none } := by
  refine ⟨?_, ?_, ?_, ?_⟩
  · simp [interceptOnError, h]
  · intro hp
    simp [interceptOnError, h, hp, setLocationHref]
  · intro hp
    simp [interceptOnError, h, hp]
  · intro s
    simp [login, interceptOnError, h]

/-- Claim C10 witness: a 401 observed while on `/dashboard` clears both
cache entries and forces one navigation to `/login`. -/
theorem interceptor_401_witness :
    (interceptOnError { status := some 401, respError := none }
        { token := some "tk", user := some "usr" }
        { path := "/dashboard", navCount := 0 }).1 =
      { token := none, user := none } ∧
    (interceptOnError { status := some 401, respError := none }
        { token := some "tk", user := some "usr" }
        { path := "/dashboard", navCount := 0 }).2 =
      { path := "/login", navCount := 1 } := by
  have h := interceptor_401_clears_and_redirects
    { status := some 401, respError := none }
    { token := some "tk", user := some "usr" }
    { path := "/dashboard", navCount := 0 } rfl
  exact ⟨h.1, h.2.1 (by decide)⟩

end BudgetTracker
